import Mathlib

/-!
Shallow embedding of the authentication and task-management core of the
task-management service (source files: auth.py, user.py, tasks.py, schema.py,
model.py).  Times are modelled as integers (Unix seconds, UTC).  JWTs are
modelled as a claim set together with the key they were signed with; a decode
succeeds exactly when the keys coincide and the exp claim, when present, has
not passed, which abstracts signature verification and expiry checking of the
jose library.  Python exceptions are modelled with Except; a try/except block
becomes a match on the inner result.
-/

/-- A JSON-ish claim value: a string or a timestamp. -/
inductive JVal where
  | str : String → JVal
  | time : Int → JVal
deriving DecidableEq, Repr

/-- A claim set (a Python dict), as an association list; the head binding for
a key shadows later ones, matching dict lookup after updates. -/
abbrev Claims := List (String × JVal)

/-- dict.get: the value bound to a key, if any. -/
def Claims.get (c : Claims) (k : String) : Option JVal :=
  (c.find? (fun p => p.1 = k)).map (fun p => p.2)

/-- dict.update for one key: bind a key, replacing any previous binding. -/
def Claims.insert (c : Claims) (k : String) (v : JVal) : Claims :=
  (k, v) :: c.filter (fun p => p.1 ≠ k)

/-- A signed token: the claim set plus the signing key.  Signature validity at
decode time is modelled by comparing keys. -/
structure Token where
  claims : Claims
  key : String
deriving DecidableEq, Repr

/-- auth.py: SECRET_KEY. -/
def SECRET_KEY : String := "JWT_SECRET_KEY"

/-- auth.py: ACCESS_TOKEN_EXPIRE_MINUTES, as seconds. -/
def ACCESS_TOKEN_EXPIRE_SECONDS : Int := 30 * 60

/-- auth.py: REFRESH_TOKEN_EXPIRE_DAYS, as seconds. -/
def REFRESH_TOKEN_EXPIRE_SECONDS : Int := 7 * 24 * 60 * 60

/-- The jose JWTError outcomes relevant here: bad signature/structure, or an
exp claim in the past. -/
inductive JWTError where
  | malformed
  | expired
deriving DecidableEq, Repr

/-- jose jwt.decode: verify the signature (key equality in this model), then
reject when the exp claim is strictly in the past; otherwise return the
claim set. -/
def jwtDecode (tok : Token) (key : String) (now : Int) : Except JWTError Claims :=
  if tok.key ≠ key then .error .malformed
  else
    match tok.claims.get "exp" with
    | some (JVal.time e) => if e < now then .error .expired else .ok tok.claims
    | _ => .ok tok.claims

/-- auth.py create_access_token: copy the data, set exp to now plus the given
delta (default 30 minutes), iat to now and type to access, and sign with
SECRET_KEY. -/
def create_access_token (data : Claims) (expires_delta : Option Int) (now : Int) : Token :=
  ⟨((data.insert "exp" (JVal.time (now + expires_delta.getD ACCESS_TOKEN_EXPIRE_SECONDS))).insert
      "iat" (JVal.time now)).insert "type" (JVal.str "access"),
    SECRET_KEY⟩

/-- auth.py create_refresh_token: copy the data, set exp to now plus 7 days,
iat to now and type to refresh, and sign with SECRET_KEY. -/
def create_refresh_token (data : Claims) (now : Int) : Token :=
  ⟨((data.insert "exp" (JVal.time (now + REFRESH_TOKEN_EXPIRE_SECONDS))).insert
      "iat" (JVal.time now)).insert "type" (JVal.str "refresh"),
    SECRET_KEY⟩

/-- An HTTPException: status code and detail. -/
structure HTTPError where
  statusCode : Nat
  detail : String
deriving DecidableEq, Repr

/-- model.py User row. -/
structure User where
  id : Nat
  username : String
  hashed_password : String
deriving DecidableEq, Repr

/-- auth.py get_current_user: the 401 with detail Could not validate
credentials. -/
def credentials_exception : HTTPError :=
  ⟨401, "Could not validate credentials"⟩

/-- An exception escaping the body of the try block in get_current_user:
either a JWTError from jwt.decode, or an HTTPException the body itself
raised. -/
inductive AuthExc where
  | jwt : JWTError → AuthExc
  | http : HTTPError → AuthExc
deriving DecidableEq, Repr

/-- The body of the try block of auth.py get_current_user: decode the token,
require a sub claim, require type to be access, and look the user up by
username; each failure raises an HTTPException (inside the try block). -/
def get_current_user_body (tok : Token) (db : List User) (now : Int) :
    Except AuthExc User :=
  match jwtDecode tok SECRET_KEY now with
  | .error e => .error (.jwt e)
  | .ok payload =>
    let username := payload.get "sub"
    if username = none then .error (.http credentials_exception)
    else if payload.get "type" ≠ some (JVal.str "access") then
      .error (.http ⟨401, "Invalid token type"⟩)
    else
      match db.find? (fun usr => username = some (JVal.str usr.username)) with
      | none => .error (.http credentials_exception)
      | some user => .ok user

/-- auth.py get_current_user: the try/except wrapper.  except JWTError maps to
the 401 credentials_exception; the following except Exception catches every
other exception — including the HTTPExceptions raised by the body itself —
and rewraps it as a 500. -/
def get_current_user (tok : Token) (db : List User) (now : Int) :
    Except HTTPError User :=
  match get_current_user_body tok db now with
  | .ok u => .ok u
  | .error (.jwt _) => .error credentials_exception
  | .error (.http _) => .error ⟨500, "Internal server error during authentication"⟩

/-- Claim C1: the claim says a well-signed, unexpired token whose type claim
is not access is rejected by get_current_user with a 401 WrongTokenType
failure.  The code instead answers 500: the 401 Invalid token type
HTTPException is raised inside the try block and the blanket except Exception
rewraps it as a 500 Internal server error during authentication.  Concretely,
a fresh refresh token for alice, with alice present in the store, yields the
500 response. -/
theorem get_current_user_wrong_type_500 :
    get_current_user (create_refresh_token [("sub", JVal.str "alice")] 0)
      [⟨1, "alice", "h"⟩] 10 =
      .error ⟨500, "Internal server error during authentication"⟩ := by
  rfl

/-- Claim C2: the claim says a valid access token whose subject is missing
from the store fails with the same 401 used for bad tokens.  The code instead
answers 500 for the missing user (the credentials_exception raised inside the
try block is swallowed by except Exception and rewrapped), while a
bad-signature token does get the 401 — so the two cases are distinguishable,
contrary to the claim. -/
theorem get_current_user_missing_user_500 :
    get_current_user (create_access_token [("sub", JVal.str "alice")] none 0)
      [] 10 =
      .error ⟨500, "Internal server error during authentication"⟩ ∧
    get_current_user ⟨[("sub", JVal.str "alice")], "WRONG_KEY"⟩ [] 10 =
      .error ⟨401, "Could not validate credentials"⟩ := by
  exact ⟨rfl, rfl⟩

/-- A value in a response dict: a string field or a token field (a token is
serialized to its compact string form on the wire; here it stays abstract). -/
inductive RVal where
  | str : String → RVal
  | tok : Token → RVal
deriving DecidableEq, Repr

/-- A handler's returned dict. -/
abbrev RDict := List (String × RVal)

/-- dict lookup in a response dict. -/
def RDict.get (d : RDict) (k : String) : Option RVal :=
  (d.find? (fun p => p.1 = k)).map (fun p => p.2)

/-- A pydantic response-model field: its name and its default value, none
meaning the field is required. -/
structure ResponseField where
  name : String
  default : Option RVal
deriving DecidableEq, Repr

/-- FastAPI response_model validation and filtering: every declared field is
taken from the handler dict, or from its default; a required field absent
from the dict is a response validation error (none); undeclared keys of the
dict are dropped. -/
def validateResponse (fs : List ResponseField) (d : RDict) : Option RDict :=
  fs.mapM (fun f =>
    match d.find? (fun p => p.1 = f.name) with
    | some p => some (f.name, p.2)
    | none => f.default.map (fun v => (f.name, v)))

/-- schema.py TokenResponse: declares access_token and token_type only, both
required. -/
def TokenResponse.fields : List ResponseField :=
  [⟨"access_token", none⟩, ⟨"token_type", none⟩]

/-- schema.py UserRegisterResponse: message, username and access_token are
required; token_type defaults to Bearer. -/
def UserRegisterResponse.fields : List ResponseField :=
  [⟨"message", none⟩, ⟨"username", none⟩,
   ⟨"access_token", none⟩, ⟨"token_type", some (RVal.str "Bearer")⟩]

/-- The outcome of the underlying passlib verification call: a boolean, or an
exception (malformed digest, library fault).  The bcrypt backend is abstracted
as a function producing such outcomes. -/
inductive VerifyOutcome where
  | ok : Bool → VerifyOutcome
  | exn : VerifyOutcome
deriving DecidableEq, Repr

/-- auth.py verify_password: call pwd_context.verify and turn any exception
into False. -/
def verify_password (backend : String → String → VerifyOutcome)
    (plain_password hashed_password : String) : Bool :=
  match backend plain_password hashed_password with
  | .ok b => b
  | .exn => false

/-- auth.py get_user_by_username: first user with the given username. -/
def get_user_by_username (db : List User) (username : String) : Option User :=
  db.find? (fun u => u.username = username)

/-- auth.py authenticate_user: look the user up; None when absent; None when
password verification fails; otherwise the user. -/
def authenticate_user (backend : String → String → VerifyOutcome)
    (db : List User) (username password : String) : Option User :=
  match get_user_by_username db username with
  | none => none
  | some user =>
    if verify_password backend password user.hashed_password then some user
    else none

/-- The register request body (schema.py UserCreate). -/
structure UserCreate where
  username : String
  password : String
deriving DecidableEq, Repr

/-- user.py register: validate username and password lengths, reject a
duplicate username, store the new user with the hashed password, and return
a dict with message and username.  The hasher is the salted bcrypt hash,
abstracted as a function.  The handler's except HTTPException clause
re-raises the 400s, so they survive the try block. -/
def register (hasher : String → String) (user : UserCreate) (db : List User) :
    Except HTTPError (RDict × List User) :=
  if user.username.length < 3 then
    .error ⟨400, "Username must be at least 3 characters long"⟩
  else if user.password.length < 6 then
    .error ⟨400, "Password must be at least 6 characters long"⟩
  else if (db.find? (fun u => u.username = user.username)).isSome then
    .error ⟨400, "Username already exists"⟩
  else
    .ok ([("message", RVal.str "User registered successfully"),
          ("username", RVal.str user.username)],
         db ++ [⟨db.length + 1, user.username, hasher user.password⟩])

/-- user.py login: authenticate, 401 on failure, otherwise a dict with the
new access token, the new refresh token, token_type bearer and the
username. -/
def login (backend : String → String → VerifyOutcome)
    (form : UserCreate) (db : List User) (now : Int) :
    Except HTTPError RDict :=
  match authenticate_user backend db form.username form.password with
  | none => .error ⟨401, "Incorrect username or password"⟩
  | some user =>
    .ok [("access_token",
            RVal.tok (create_access_token [("sub", JVal.str user.username)] none now)),
         ("refresh_token",
            RVal.tok (create_refresh_token [("sub", JVal.str user.username)] now)),
         ("token_type", RVal.str "bearer"),
         ("username", RVal.str user.username)]

/-- Claim C3: the claim says a successful registration response body contains
message, username, accessToken and tokenType.  The handler returns only
message and username, while its declared response model UserRegisterResponse
requires access_token; response-model validation of the returned dict
therefore fails (none) — the successful-path body never carries an access
token.  Shown for any hasher at the registration of alice with password
secret1 against an empty store. -/
theorem register_success_body_fails_response_model :
    ∀ hasher : String → String,
      register hasher ⟨"alice", "secret1"⟩ [] =
        .ok ([("message", RVal.str "User registered successfully"),
              ("username", RVal.str "alice")],
             [⟨1, "alice", hasher "secret1"⟩]) ∧
      validateResponse UserRegisterResponse.fields
        [("message", RVal.str "User registered successfully"),
         ("username", RVal.str "alice")] = none ∧
      RDict.get [("message", RVal.str "User registered successfully"),
                 ("username", RVal.str "alice")] "access_token" = none := by
  intro hasher
  refine ⟨?_, rfl, rfl⟩
  rfl

/-- Claim C4: the claim says the login (and refresh) response body delivered
to the caller contains accessToken, refreshToken, tokenType and username.
The handler does return all four, but the declared response model
TokenResponse only lists access_token and token_type, so FastAPI filters the
body to those two fields: refresh_token and username are dropped from the
delivered body.  Shown for a concrete successful login. -/
theorem login_response_model_drops_fields :
    ∃ body out,
      login (fun p h => VerifyOutcome.ok (p = "secret1" && h = "hash1"))
        ⟨"alice", "secret1"⟩ [⟨1, "alice", "hash1"⟩] 0 = .ok body ∧
      RDict.get body "refresh_token" ≠ none ∧
      RDict.get body "username" ≠ none ∧
      validateResponse TokenResponse.fields body = some out ∧
      RDict.get out "refresh_token" = none ∧
      RDict.get out "username" = none ∧
      out.map (fun p => p.1) = ["access_token", "token_type"] := by
  refine ⟨_, _, rfl, ?_, ?_, rfl, rfl, rfl, rfl⟩
  · intro h
    simp [RDict.get] at h
  · intro h
    simp [RDict.get] at h

/-- Claim C7: authenticate_user returns a user exactly when the lookup finds
the username and the underlying verification returns True; in every other
case — username absent, verification False, or the verification library
raising (which verify_password converts to False) — it returns none and
never raises. -/
theorem authenticate_user_characterization :
    ∀ (backend : String → String → VerifyOutcome) (db : List User)
      (username password : String) (u : User),
      authenticate_user backend db username password = some u ↔
        (get_user_by_username db username = some u ∧
         backend password u.hashed_password = VerifyOutcome.ok true) := by
  intro backend db username password u
  unfold authenticate_user verify_password
  cases hfind : get_user_by_username db username with
  | none => simp
  | some user =>
    cases hb : backend password user.hashed_password with
    | ok b =>
      cases b with
      | false => simp [hb]; rintro rfl; simp [hb]
      | true => simp [hb]; rintro rfl; simp [hb]
    | exn => simp [hb]; rintro rfl; simp [hb]

/-- auth.py validate_refresh_token: decode, map any JWTError to a 401 Invalid
refresh token, and reject a payload whose type claim is not refresh with a
401 Invalid token type (that HTTPException is not a JWTError, so it passes
through the except clause unchanged). -/
def validate_refresh_token (tok : Token) (now : Int) : Except HTTPError Claims :=
  match jwtDecode tok SECRET_KEY now with
  | .error _ => .error ⟨401, "Invalid refresh token"⟩
  | .ok payload =>
    if payload.get "type" ≠ some (JVal.str "refresh") then
      .error ⟨401, "Invalid token type"⟩
    else .ok payload

/-- user.py refresh_token endpoint: validate the refresh token, look the
subject up, 401 User not found when absent, otherwise mint a new access token
and return it together with the same refresh token, token_type bearer and the
username.  The handler performs no store write, so the store is returned
unchanged — there is no single-use marking, rotation or revocation state. -/
def refresh_token_route (db : List User) (tok : Token) (now : Int) :
    Except HTTPError RDict × List User :=
  match validate_refresh_token tok now with
  | .error e => (.error e, db)
  | .ok payload =>
    match db.find? (fun usr => payload.get "sub" = some (JVal.str usr.username)) with
    | none => (.error ⟨401, "User not found"⟩, db)
    | some user =>
      (.ok [("access_token",
               RVal.tok (create_access_token [("sub", JVal.str user.username)] none now)),
            ("refresh_token", RVal.tok tok),
            ("token_type", RVal.str "bearer"),
            ("username", RVal.str user.username)], db)

/-- Claim C5: for a well-signed refresh token whose exp has not passed, whose
type claim is refresh and whose subject is found in the store, the refresh
endpoint succeeds, echoes exactly the same refresh token alongside a freshly
minted access token, leaves the store unchanged, and a second call on the
resulting store with the same token succeeds with the same body — no
single-use invalidation, rotation or revocation. -/
theorem refresh_token_reusable_and_unrotated
    (db : List User) (tok : Token) (now e : Int) (user : User)
    (hkey : tok.key = SECRET_KEY)
    (hexp : tok.claims.get "exp" = some (JVal.time e))
    (hnow : now ≤ e)
    (htype : tok.claims.get "type" = some (JVal.str "refresh"))
    (huser : db.find? (fun usr => tok.claims.get "sub" = some (JVal.str usr.username)) =
      some user) :
    ∃ body,
      refresh_token_route db tok now = (Except.ok body, db) ∧
      RDict.get body "refresh_token" = some (RVal.tok tok) ∧
      RDict.get body "access_token" =
        some (RVal.tok (create_access_token [("sub", JVal.str user.username)] none now)) ∧
      refresh_token_route (refresh_token_route db tok now).2 tok now =
        (Except.ok body, db) := by
  have hkeyne : ¬ (tok.key ≠ SECRET_KEY) := by simp [hkey]
  have hdecode : jwtDecode tok SECRET_KEY now = .ok tok.claims := by
    simp only [jwtDecode, hexp]
    rw [if_neg hkeyne, if_neg (by omega)]
  have hval : validate_refresh_token tok now = .ok tok.claims := by
    simp only [validate_refresh_token, hdecode]
    rw [if_neg (by simp [htype])]
  have hroute :
      refresh_token_route db tok now =
        (Except.ok [("access_token",
            RVal.tok (create_access_token [("sub", JVal.str user.username)] none now)),
          ("refresh_token", RVal.tok tok),
          ("token_type", RVal.str "bearer"),
          ("username", RVal.str user.username)], db) := by
    simp only [refresh_token_route, hval, huser]
  refine ⟨_, hroute, rfl, rfl, ?_⟩
  rw [hroute, hroute]

/-- Witness for C5 at a concrete refresh token for alice: both hypotheses and
the reuse of the same token hold at the token created at time 0 and refreshed
at time 100. -/
theorem refresh_token_reusable_witness :
    ∃ body,
      refresh_token_route [⟨1, "alice", "h1"⟩]
        (create_refresh_token [("sub", JVal.str "alice")] 0) 100 =
        (Except.ok body, [⟨1, "alice", "h1"⟩]) ∧
      RDict.get body "refresh_token" =
        some (RVal.tok (create_refresh_token [("sub", JVal.str "alice")] 0)) ∧
      RDict.get body "access_token" =
        some (RVal.tok (create_access_token [("sub", JVal.str "alice")] none 100)) ∧
      refresh_token_route
        (refresh_token_route [⟨1, "alice", "h1"⟩]
          (create_refresh_token [("sub", JVal.str "alice")] 0) 100).2
        (create_refresh_token [("sub", JVal.str "alice")] 0) 100 =
        (Except.ok body, [⟨1, "alice", "h1"⟩]) :=
  refresh_token_reusable_and_unrotated
    [⟨1, "alice", "h1"⟩]
    (create_refresh_token [("sub", JVal.str "alice")] 0) 100 604800
    ⟨1, "alice", "h1"⟩ rfl rfl (by omega) rfl rfl

/-- Claim C6: encoding the claim set with subject s as an access token at
time now with TTL ttl and decoding it with the same key at any time strictly
before now + ttl yields a valid claim set whose sub is s and whose type is
access. -/
theorem access_token_roundtrip
    (s : String) (ttl now t : Int) (h : t < now + ttl) :
    ∃ c,
      jwtDecode (create_access_token [("sub", JVal.str s)] (some ttl) now)
        SECRET_KEY t = .ok c ∧
      Claims.get c "sub" = some (JVal.str s) ∧
      Claims.get c "type" = some (JVal.str "access") := by
  have hclaims : (create_access_token [("sub", JVal.str s)] (some ttl) now).claims =
      [("type", JVal.str "access"), ("iat", JVal.time now),
       ("exp", JVal.time (now + ttl)), ("sub", JVal.str s)] := rfl
  refine ⟨(create_access_token [("sub", JVal.str s)] (some ttl) now).claims, ?_, ?_, ?_⟩
  · have hget : Claims.get
        [("type", JVal.str "access"), ("iat", JVal.time now),
         ("exp", JVal.time (now + ttl)), ("sub", JVal.str s)] "exp" =
        some (JVal.time (now + ttl)) := rfl
    have hkeyne : ¬ ((create_access_token [("sub", JVal.str s)] (some ttl) now).key ≠
        SECRET_KEY) := fun hh => hh rfl
    simp only [jwtDecode, hclaims, hget]
    rw [if_neg hkeyne, if_neg (by omega)]
  · rw [hclaims]; rfl
  · rw [hclaims]; rfl

/-- Witness for C6 at subject alice, TTL 60, issued at 0, decoded at 30. -/
theorem access_token_roundtrip_witness :
    ∃ c,
      jwtDecode (create_access_token [("sub", JVal.str "alice")] (some 60) 0)
        SECRET_KEY 30 = .ok c ∧
      Claims.get c "sub" = some (JVal.str "alice") ∧
      Claims.get c "type" = some (JVal.str "access") :=
  access_token_roundtrip "alice" 60 0 30 (by omega)

/-- A heap of Python dicts: a dict reference is an index into the heap.  Used
to make the reference semantics of data.copy() and to_encode.update(...)
explicit. -/
abbrev Store := List Claims

/-- Dereference a dict. -/
def Store.read : Store → Nat → Claims
  | [], _ => []
  | c :: _, 0 => c
  | _ :: s, n + 1 => Store.read s n

/-- Overwrite the dict at a reference. -/
def Store.write : Store → Nat → Claims → Store
  | [], _, _ => []
  | _ :: s, 0, c => c :: s
  | c :: s, n + 1, d => c :: Store.write s n d

/-- auth.py create_access_token, with the dict heap explicit: to_encode is a
fresh copy of the data dict, the exp, iat and type claims are written into
that copy in place, and the copy is what gets signed.  Returns the heap after
the call together with the token. -/
def create_access_token_state (s : Store) (dataRef : Nat) (expires_delta : Option Int)
    (now : Int) : Store × Token :=
  let copied := Store.read s dataRef
  let toEncodeRef := s.length
  let s1 := s ++ [copied]
  let updated := ((Store.read s1 toEncodeRef).insert "exp"
      (JVal.time (now + expires_delta.getD ACCESS_TOKEN_EXPIRE_SECONDS))).insert
      "iat" (JVal.time now) |>.insert "type" (JVal.str "access")
  let s2 := Store.write s1 toEncodeRef updated
  (s2, ⟨Store.read s2 toEncodeRef, SECRET_KEY⟩)

/-- auth.py create_refresh_token, with the dict heap explicit, same shape as
create_access_token_state but with the refresh expiry and type. -/
def create_refresh_token_state (s : Store) (dataRef : Nat) (now : Int) :
    Store × Token :=
  let copied := Store.read s dataRef
  let toEncodeRef := s.length
  let s1 := s ++ [copied]
  let updated := ((Store.read s1 toEncodeRef).insert "exp"
      (JVal.time (now + REFRESH_TOKEN_EXPIRE_SECONDS))).insert
      "iat" (JVal.time now) |>.insert "type" (JVal.str "refresh")
  let s2 := Store.write s1 toEncodeRef updated
  (s2, ⟨Store.read s2 toEncodeRef, SECRET_KEY⟩)

theorem Store.read_append_left (s : Store) (t : Store) (r : Nat)
    (h : r < s.length) : Store.read (s ++ t) r = Store.read s r := by
  induction s generalizing r with
  | nil => simp at h
  | cons c s ih =>
    cases r with
    | zero => rfl
    | succ n =>
      simp only [List.cons_append, Store.read]
      exact ih n (by simpa using h)

theorem Store.read_write_ne (s : Store) (i r : Nat) (c : Claims)
    (h : i ≠ r) : Store.read (Store.write s i c) r = Store.read s r := by
  induction s generalizing i r with
  | nil => rfl
  | cons d s ih =>
    cases i with
    | zero =>
      cases r with
      | zero => exact absurd rfl h
      | succ n => rfl
    | succ m =>
      cases r with
      | zero => rfl
      | succ n =>
        simp only [Store.write, Store.read]
        exact ih m n (by omega)

/-- Claim C8: both token creators only write into the fresh copy of the data
dict; the dict the caller passed in is unchanged in the heap after the call,
for any valid reference. -/
theorem create_token_preserves_caller_dict
    (s : Store) (r : Nat) (expires_delta : Option Int) (now : Int)
    (h : r < s.length) :
    Store.read (create_access_token_state s r expires_delta now).1 r = Store.read s r ∧
    Store.read (create_refresh_token_state s r now).1 r = Store.read s r := by
  constructor
  · show Store.read (Store.write (s ++ [Store.read s r]) s.length _) r = Store.read s r
    rw [Store.read_write_ne _ _ _ _ (by omega)]
    exact Store.read_append_left s _ r h
  · show Store.read (Store.write (s ++ [Store.read s r]) s.length _) r = Store.read s r
    rw [Store.read_write_ne _ _ _ _ (by omega)]
    exact Store.read_append_left s _ r h

/-- Witness for C8 at a one-dict heap holding the claim set with subject
alice, reference 0. -/
theorem create_token_preserves_caller_dict_witness :
    Store.read (create_access_token_state [[("sub", JVal.str "alice")]] 0 none 0).1 0 =
      Store.read [[("sub", JVal.str "alice")]] 0 ∧
    Store.read (create_refresh_token_state [[("sub", JVal.str "alice")]] 0 0).1 0 =
      Store.read [[("sub", JVal.str "alice")]] 0 :=
  create_token_preserves_caller_dict [[("sub", JVal.str "alice")]] 0 none 0
    (by decide)

/-- model.py Task row (the structure named Task in model.py; named TaskRow
here because Task is taken by the Lean core library). -/
structure TaskRow where
  id : Nat
  title : String
  description : String
  completed : Bool
  owner_id : Nat
deriving DecidableEq, Repr

/-- Whether one character list occurs as a prefix of another. -/
def isPrefixChars : List Char → List Char → Bool
  | [], _ => true
  | _ :: _, [] => false
  | a :: as, b :: bs => a = b && isPrefixChars as bs

/-- Whether one character list occurs somewhere inside another. -/
def containsChars (needle : List Char) : List Char → Bool
  | [] => isPrefixChars needle []
  | c :: rest => isPrefixChars needle (c :: rest) || containsChars needle rest

/-- SQL LIKE with wildcards on both sides: the needle occurs inside the
haystack. -/
def strContains (hay needle : String) : Bool :=
  containsChars needle.toList hay.toList

/-- One field matches the query under the chosen case sensitivity: LIKE for
case_sensitive, ILIKE (lower both sides) otherwise. -/
def fieldMatches (case_sensitive : Bool) (field query : String) : Bool :=
  if case_sensitive then strContains field query
  else strContains field.toLower query.toLower

/-- The per-task match predicate of tasks.py search_tasks: title,
description, or either, according to search_by. -/
def taskMatches (case_sensitive : Bool) (search_by : String) (query : String)
    (t : TaskRow) : Bool :=
  if search_by = "title" then fieldMatches case_sensitive t.title query
  else if search_by = "description" then fieldMatches case_sensitive t.description query
  else fieldMatches case_sensitive t.title query ||
    fieldMatches case_sensitive t.description query

/-- The body of the try block of tasks.py search_tasks: run the filtered
query; when no task matches, raise a 404 HTTPException (inside the try
block). -/
def search_tasks_inner (db : List TaskRow) (ownerId : Nat) (query : String)
    (case_sensitive : Bool) (search_by : String) : Except HTTPError (List TaskRow) :=
  let tasks := (db.filter (fun t => t.owner_id = ownerId)).filter
    (taskMatches case_sensitive search_by query)
  if tasks.isEmpty then
    .error ⟨404, "No tasks found matching your search criteria in " ++ search_by⟩
  else .ok tasks

/-- tasks.py search_tasks: the search_by validation happens before the try
block, so its 400 propagates; inside the try block, any exception — the
handler's own 404 included, since there is no except HTTPException clause —
is caught by except Exception and rewrapped as a 500. -/
def search_tasks (db : List TaskRow) (ownerId : Nat) (query : String)
    (case_sensitive : Bool) (search_by : String) : Except HTTPError (List TaskRow) :=
  if ¬ (search_by = "all" ∨ search_by = "title" ∨ search_by = "description") then
    .error ⟨400, "search_by must be all, title, or description"⟩
  else
    match search_tasks_inner db ownerId query case_sensitive search_by with
    | .ok tasks => .ok tasks
    | .error e => .error ⟨500, "An error occurred during search: " ++ e.detail⟩

/-- tasks.py get_paginated_task: the owner's tasks, after offset skip and
limit.  Both parameters default to 0 in the route signature. -/
def get_paginated_task (db : List TaskRow) (ownerId : Nat) (skip limit : Nat) :
    List TaskRow :=
  ((db.filter (fun t => t.owner_id = ownerId)).drop skip).take limit

/-- Claim C9: with the default limit of 0 the paginated listing is the empty
list, whatever the store, the owner and the skip. -/
theorem get_paginated_default_limit_empty :
    ∀ (db : List TaskRow) (ownerId skip : Nat),
      get_paginated_task db ownerId skip 0 = [] := by
  intro db ownerId skip
  rfl

/-- Claim C10: when a valid search_by is given and no task of the owner
matches the query, search_tasks answers the 500 produced by rewrapping the
internal 404 — not a 404 and not an empty ok list. -/
theorem search_no_match_500
    (db : List TaskRow) (ownerId : Nat) (query : String) (case_sensitive : Bool)
    (search_by : String)
    (hsb : search_by = "all" ∨ search_by = "title" ∨ search_by = "description")
    (hempty : ((db.filter (fun t => t.owner_id = ownerId)).filter
      (taskMatches case_sensitive search_by query)).isEmpty = true) :
    search_tasks db ownerId query case_sensitive search_by =
      .error ⟨500, "An error occurred during search: " ++
        ("No tasks found matching your search criteria in " ++ search_by)⟩ := by
  have hinner : search_tasks_inner db ownerId query case_sensitive search_by =
      .error ⟨404, "No tasks found matching your search criteria in " ++ search_by⟩ := by
    simp only [search_tasks_inner]
    rw [if_pos hempty]
  simp only [search_tasks, hinner]
  rw [if_neg (by simp [hsb])]

/-- Witness for C10: searching an empty store for anything with search_by all
yields the rewrapped 500. -/
theorem search_no_match_500_witness :
    search_tasks [] 1 "x" false "all" =
      .error ⟨500, "An error occurred during search: " ++
        ("No tasks found matching your search criteria in " ++ "all")⟩ :=
  search_no_match_500 [] 1 "x" false "all" (Or.inl rfl) rfl
